import Mathlib

/-!
Shallow embedding of the FreelanceContractPro server core
(`src/shared/schema.ts`, `src/server/storage.ts`,
`src/server/services/ai.ts`, `src/server/services/trust-score.ts`).

Conventions of the embedding:
* JavaScript numbers are modelled as `Rat` where the source does real
  arithmetic (amounts, ratings, score factors) and as `Nat`/`Int` where the
  source uses integer ids, counters and rounded scores.
* `Date` values are modelled as `Nat` timestamps; operations that read the
  clock (`new Date()`) take the current time as an explicit `now` argument.
* `undefined`/`null` become `Option`; a TS function returning
  `T | undefined` becomes a Lean function returning `Option T`.
* The `Map<number, T>` fields of `MemStorage` are modelled as insertion
  ordered association lists with JS `Map.set`/`Map.get` semantics.
* `MemStorage` methods are state-passing functions; a mutating method
  returns its TS return value paired with the updated store.
* The embedding covers the six aggregates the verified operations touch
  (users, contracts, milestones, escrow payments, disputes, reviews);
  the template / blockchain / 2FA / notification maps are not read or
  written by any operation below.
-/

namespace FreelanceContractPro

/-- `UserType` from `src/shared/schema.ts`. -/
inductive UserType
  | freelancer
  | client
  | moderator
deriving DecidableEq, Repr

/-- `ContractStatus` from `src/shared/schema.ts`. -/
inductive ContractStatus
  | draft
  | pending
  | active
  | completed
  | cancelled
  | disputed
deriving DecidableEq, Repr

/-- `MilestoneStatus` from `src/shared/schema.ts`. -/
inductive MilestoneStatus
  | not_started
  | in_progress
  | pending_review
  | ready_for_payment
  | completed
  | disputed
deriving DecidableEq, Repr

/-- `PaymentMethod` from `src/shared/schema.ts`. -/
inductive PaymentMethod
  | stripe
  | paypal
  | razorpay
  | crypto
deriving DecidableEq, Repr

/-- `DisputeStatus` from `src/shared/schema.ts` (`open` is a Lean keyword,
so the first constructor is spelled `open_`). -/
inductive DisputeStatus
  | open_
  | under_review
  | resolved_for_client
  | resolved_for_freelancer
  | resolved_compromise
deriving DecidableEq, Repr

/-- `User` row from `src/shared/schema.ts`. -/
structure User where
  id : Nat
  username : String
  password : String
  email : String
  fullName : String
  userType : UserType
  bio : Option String
  profileImage : Option String
deriving DecidableEq, Repr

/-- `InsertUser` (insert schema for users). -/
structure InsertUser where
  username : String
  password : String
  email : String
  fullName : String
  userType : UserType
  bio : Option String
  profileImage : Option String
deriving DecidableEq, Repr

/-- `Contract` row from `src/shared/schema.ts`. -/
structure Contract where
  id : Nat
  title : String
  description : String
  clientId : Nat
  freelancerId : Nat
  status : ContractStatus
  totalAmount : Rat
  contractType : String
  startDate : Nat
  endDate : Nat
  termsAndConditions : String
  createdAt : Nat
deriving DecidableEq, Repr

/-- `InsertContract` (insert schema for contracts; `status` is optional). -/
structure InsertContract where
  title : String
  description : String
  clientId : Nat
  freelancerId : Nat
  status : Option ContractStatus
  totalAmount : Rat
  contractType : String
  startDate : Nat
  endDate : Nat
  termsAndConditions : String
deriving DecidableEq, Repr

/-- `Milestone` row from `src/shared/schema.ts`. -/
structure Milestone where
  id : Nat
  contractId : Nat
  title : String
  description : String
  amount : Rat
  status : MilestoneStatus
  dueDate : Nat
  completedDate : Option Nat
deriving DecidableEq, Repr

/-- `InsertMilestone` (insert schema for milestones; `status` is optional). -/
structure InsertMilestone where
  contractId : Nat
  title : String
  description : String
  amount : Rat
  status : Option MilestoneStatus
  dueDate : Nat
deriving DecidableEq, Repr

/-- `EscrowPayment` row from `src/shared/schema.ts`.  The `jsonb`
`paymentDetails` payload is carried as an opaque optional string. -/
structure EscrowPayment where
  id : Nat
  milestoneId : Nat
  clientId : Nat
  freelancerId : Nat
  amount : Rat
  status : String
  paymentMethod : PaymentMethod
  paymentDetails : Option String
  stripePaymentIntentId : Option String
  blockchainTxHash : Option String
  depositedAt : Nat
  releasedAt : Option Nat
deriving DecidableEq, Repr

/-- `InsertEscrowPayment` (insert schema for escrow payments). -/
structure InsertEscrowPayment where
  milestoneId : Nat
  clientId : Nat
  freelancerId : Nat
  amount : Rat
  status : String
  paymentMethod : PaymentMethod
  paymentDetails : Option String
  stripePaymentIntentId : Option String
  blockchainTxHash : Option String
deriving DecidableEq, Repr

/-- `Dispute` row from `src/shared/schema.ts`; the `jsonb` `evidence`
payload is carried as an opaque optional string. -/
structure Dispute where
  id : Nat
  contractId : Nat
  milestoneId : Option Nat
  initiatedBy : Nat
  respondent : Nat
  moderatorId : Option Nat
  status : DisputeStatus
  reason : String
  evidence : Option String
  resolution : Option String
  createdAt : Nat
  resolvedAt : Option Nat
deriving DecidableEq, Repr

/-- `InsertDispute` (insert schema for disputes; `status` is optional). -/
structure InsertDispute where
  contractId : Nat
  milestoneId : Option Nat
  initiatedBy : Nat
  respondent : Nat
  moderatorId : Option Nat
  status : Option DisputeStatus
  reason : String
  evidence : Option String
  resolution : Option String
deriving DecidableEq, Repr

/-- `Review` row from `src/shared/schema.ts` (`rating` is an integer
column, 1-5 stars). -/
structure Review where
  id : Nat
  contractId : Nat
  reviewerId : Nat
  receiverId : Nat
  rating : Nat
  comment : Option String
  createdAt : Nat
deriving DecidableEq, Repr

/-- `InsertReview` (insert schema for reviews). -/
structure InsertReview where
  contractId : Nat
  reviewerId : Nat
  receiverId : Nat
  rating : Nat
  comment : Option String
deriving DecidableEq, Repr

/-- JS `x || null` applied to an optional string: the empty string is
falsy, so it too collapses to `null`. -/
def orNullStr (o : Option String) : Option String :=
  match o with
  | some s => if s = "" then none else some s
  | none => none

/-- JS `Map.get`: first (and only) binding of the key, if any. -/
def mapGet {α : Type} (m : List (Nat × α)) (k : Nat) : Option α :=
  (m.find? (fun p => p.1 == k)).map Prod.snd

/-- JS `Map.set`: replace the binding in place when the key is present,
otherwise append it (preserving insertion order). -/
def mapSet {α : Type} (m : List (Nat × α)) (k : Nat) (v : α) : List (Nat × α) :=
  if m.any (fun p => p.1 == k) then
    m.map (fun p => if p.1 == k then (k, v) else p)
  else
    m ++ [(k, v)]

/-- JS `Array.from(map.values())`. -/
def mapValues {α : Type} (m : List (Nat × α)) : List α :=
  m.map Prod.snd

/-- The `MemStorage` state from `src/server/storage.ts` (fields restricted
to the six aggregates touched by the operations verified here). -/
structure MemStorage where
  users : List (Nat × User)
  contracts : List (Nat × Contract)
  milestones : List (Nat × Milestone)
  escrowPayments : List (Nat × EscrowPayment)
  disputes : List (Nat × Dispute)
  reviews : List (Nat × Review)
  userIdCounter : Nat
  contractIdCounter : Nat
  milestoneIdCounter : Nat
  escrowPaymentIdCounter : Nat
  disputeIdCounter : Nat
  reviewIdCounter : Nat
deriving DecidableEq, Repr

/-- The `MemStorage` constructor: empty maps, all counters at 1. -/
def emptyStorage : MemStorage :=
  { users := []
    contracts := []
    milestones := []
    escrowPayments := []
    disputes := []
    reviews := []
    userIdCounter := 1
    contractIdCounter := 1
    milestoneIdCounter := 1
    escrowPaymentIdCounter := 1
    disputeIdCounter := 1
    reviewIdCounter := 1 }

namespace MemStorage

/-- `MemStorage.getUser`. -/
def getUser (s : MemStorage) (id : Nat) : Option User :=
  mapGet s.users id

/-- `MemStorage.createUser`. -/
def createUser (s : MemStorage) (userData : InsertUser) : User × MemStorage :=
  let id := s.userIdCounter
  let user : User :=
    { id := id
      username := userData.username
      password := userData.password
      email := userData.email
      fullName := userData.fullName
      userType := userData.userType
      bio := orNullStr userData.bio
      profileImage := orNullStr userData.profileImage }
  (user, { s with users := mapSet s.users id user, userIdCounter := id + 1 })

/-- `MemStorage.getContract`. -/
def getContract (s : MemStorage) (id : Nat) : Option Contract :=
  mapGet s.contracts id

/-- `MemStorage.createContract` (`now` is the internal `new Date()`). -/
def createContract (s : MemStorage) (contractData : InsertContract) (now : Nat) :
    Contract × MemStorage :=
  let id := s.contractIdCounter
  let contract : Contract :=
    { id := id
      title := contractData.title
      description := contractData.description
      clientId := contractData.clientId
      freelancerId := contractData.freelancerId
      status := contractData.status.getD ContractStatus.draft
      totalAmount := contractData.totalAmount
      contractType := contractData.contractType
      startDate := contractData.startDate
      endDate := contractData.endDate
      termsAndConditions := contractData.termsAndConditions
      createdAt := now }
  (contract,
   { s with contracts := mapSet s.contracts id contract, contractIdCounter := id + 1 })

/-- `MemStorage.updateContractStatus`: `undefined` when the id is absent,
otherwise overwrite the status field unconditionally. -/
def updateContractStatus (s : MemStorage) (id : Nat) (status : ContractStatus) :
    Option Contract × MemStorage :=
  match mapGet s.contracts id with
  | none => (none, s)
  | some contract =>
    let updatedContract := { contract with status := status }
    (some updatedContract, { s with contracts := mapSet s.contracts id updatedContract })

/-- `MemStorage.getMilestone`. -/
def getMilestone (s : MemStorage) (id : Nat) : Option Milestone :=
  mapGet s.milestones id

/-- `MemStorage.createMilestone`. -/
def createMilestone (s : MemStorage) (milestoneData : InsertMilestone) :
    Milestone × MemStorage :=
  let id := s.milestoneIdCounter
  let milestone : Milestone :=
    { id := id
      contractId := milestoneData.contractId
      title := milestoneData.title
      description := milestoneData.description
      amount := milestoneData.amount
      status := milestoneData.status.getD MilestoneStatus.not_started
      dueDate := milestoneData.dueDate
      completedDate := none }
  (milestone,
   { s with milestones := mapSet s.milestones id milestone, milestoneIdCounter := id + 1 })

/-- `MemStorage.updateMilestoneStatus`. -/
def updateMilestoneStatus (s : MemStorage) (id : Nat) (status : MilestoneStatus) :
    Option Milestone × MemStorage :=
  match mapGet s.milestones id with
  | none => (none, s)
  | some milestone =>
    let updatedMilestone := { milestone with status := status }
    (some updatedMilestone, { s with milestones := mapSet s.milestones id updatedMilestone })

/-- `MemStorage.completeMilestone`: `undefined` when the id is absent,
otherwise unconditionally set status to `completed` and overwrite the
completion date. -/
def completeMilestone (s : MemStorage) (id : Nat) (completedDate : Nat) :
    Option Milestone × MemStorage :=
  match mapGet s.milestones id with
  | none => (none, s)
  | some milestone =>
    let updatedMilestone :=
      { milestone with
        status := MilestoneStatus.completed
        completedDate := some completedDate }
    (some updatedMilestone, { s with milestones := mapSet s.milestones id updatedMilestone })

/-- `MemStorage.createEscrowPayment` (`now` is the internal `new Date()`). -/
def createEscrowPayment (s : MemStorage) (paymentData : InsertEscrowPayment) (now : Nat) :
    EscrowPayment × MemStorage :=
  let id := s.escrowPaymentIdCounter
  let payment : EscrowPayment :=
    { id := id
      milestoneId := paymentData.milestoneId
      clientId := paymentData.clientId
      freelancerId := paymentData.freelancerId
      amount := paymentData.amount
      status := paymentData.status
      paymentMethod := paymentData.paymentMethod
      paymentDetails := orNullStr paymentData.paymentDetails
      stripePaymentIntentId := orNullStr paymentData.stripePaymentIntentId
      blockchainTxHash := orNullStr paymentData.blockchainTxHash
      depositedAt := now
      releasedAt := none }
  (payment,
   { s with
     escrowPayments := mapSet s.escrowPayments id payment
     escrowPaymentIdCounter := id + 1 })

/-- `MemStorage.getEscrowPayment`. -/
def getEscrowPayment (s : MemStorage) (id : Nat) : Option EscrowPayment :=
  mapGet s.escrowPayments id

/-- `MemStorage.getEscrowPaymentsByMilestone`. -/
def getEscrowPaymentsByMilestone (s : MemStorage) (milestoneId : Nat) :
    List EscrowPayment :=
  (mapValues s.escrowPayments).filter (fun payment => payment.milestoneId == milestoneId)

/-- `MemStorage.releaseEscrowPayment`: `undefined` when the id is absent,
otherwise overwrite `releasedAt` unconditionally. -/
def releaseEscrowPayment (s : MemStorage) (id : Nat) (releaseDate : Nat) :
    Option EscrowPayment × MemStorage :=
  match mapGet s.escrowPayments id with
  | none => (none, s)
  | some payment =>
    let updatedPayment := { payment with releasedAt := some releaseDate }
    (some updatedPayment,
     { s with escrowPayments := mapSet s.escrowPayments id updatedPayment })

/-- `MemStorage.createDispute` (`now` is the internal `new Date()`). -/
def createDispute (s : MemStorage) (disputeData : InsertDispute) (now : Nat) :
    Dispute × MemStorage :=
  let id := s.disputeIdCounter
  let dispute : Dispute :=
    { id := id
      contractId := disputeData.contractId
      milestoneId := disputeData.milestoneId
      initiatedBy := disputeData.initiatedBy
      respondent := disputeData.respondent
      moderatorId := disputeData.moderatorId
      status := disputeData.status.getD DisputeStatus.open_
      reason := disputeData.reason
      evidence := disputeData.evidence
      resolution := disputeData.resolution
      createdAt := now
      resolvedAt := none }
  (dispute,
   { s with disputes := mapSet s.disputes id dispute, disputeIdCounter := id + 1 })

/-- `MemStorage.getDispute`. -/
def getDispute (s : MemStorage) (id : Nat) : Option Dispute :=
  mapGet s.disputes id

/-- `MemStorage.updateDisputeStatus` (`now` is the internal `new Date()`):
`undefined` when the id is absent; otherwise overwrite the status, keep the
old resolution text when the new one is falsy, and stamp `resolvedAt` with
the current time whenever the new status is one of the three resolved
statuses (otherwise keep the old value). -/
def updateDisputeStatus (s : MemStorage) (id : Nat) (status : DisputeStatus)
    (resolution : Option String) (now : Nat) : Option Dispute × MemStorage :=
  match mapGet s.disputes id with
  | none => (none, s)
  | some dispute =>
    let updatedDispute : Dispute :=
      { dispute with
        status := status
        resolution :=
          match orNullStr resolution with
          | some r => some r
          | none => dispute.resolution
        resolvedAt :=
          if status = DisputeStatus.resolved_for_client ∨
             status = DisputeStatus.resolved_for_freelancer ∨
             status = DisputeStatus.resolved_compromise then
            some now
          else
            dispute.resolvedAt }
    (some updatedDispute, { s with disputes := mapSet s.disputes id updatedDispute })

/-- `MemStorage.createReview` (`now` is the internal `new Date()`). -/
def createReview (s : MemStorage) (reviewData : InsertReview) (now : Nat) :
    Review × MemStorage :=
  let id := s.reviewIdCounter
  let review : Review :=
    { id := id
      contractId := reviewData.contractId
      reviewerId := reviewData.reviewerId
      receiverId := reviewData.receiverId
      rating := reviewData.rating
      comment := reviewData.comment
      createdAt := now }
  (review, { s with reviews := mapSet s.reviews id review, reviewIdCounter := id + 1 })

/-- `MemStorage.getReviewsByUser`. -/
def getReviewsByUser (s : MemStorage) (userId : Nat) : List Review :=
  (mapValues s.reviews).filter (fun review => review.receiverId == userId)

/-- `MemStorage.getUserRating`: 0 with no reviews, else the mean rating. -/
def getUserRating (s : MemStorage) (userId : Nat) : Rat :=
  let reviews := s.getReviewsByUser userId
  if reviews.length = 0 then
    0
  else
    ((reviews.map (fun review => (review.rating : Rat))).sum) / (reviews.length : Rat)

end MemStorage

/-! ### Trust score engine (`src/server/services/ai.ts`) -/

/-- The `userHistory` argument of `calculateTrustScore`. -/
structure UserHistory where
  contractsCompleted : Nat
  contractsCancelled : Nat
  averageRating : Rat
  disputesInitiated : Nat
  disputesLost : Nat
  paymentsPunctual : Nat
  paymentsLate : Nat
  deliverablesOnTime : Nat
  deliverablesLate : Nat
deriving DecidableEq, Repr

/-- The record returned by `calculateTrustScore`. -/
structure TrustScoreResult where
  overallScore : Int
  ratingFactor : Rat
  reliabilityFactor : Rat
  disputeFactor : Rat
  recommendation : String
deriving DecidableEq, Repr

/-- JavaScript `Math.round`: round half toward positive infinity. -/
def jsRound (q : Rat) : Int :=
  Int.floor (q + 1 / 2)

/-- `calculateTrustScore` from `src/server/services/ai.ts` (the TS version
also takes the user id, which it never reads; it is kept as an argument
for fidelity).  The `userType` parameter is branched on as
`userType === 'freelancer'`, so any other user type takes the client
branch, as in the source. -/
def calculateTrustScore (userId : Nat) (userType : UserType) (userHistory : UserHistory) :
    TrustScoreResult :=
  let ratingFactor : Rat := userHistory.averageRating / 5
  let reliabilityFactor : Rat :=
    if userType = UserType.freelancer then
      let deliverableTotal := userHistory.deliverablesOnTime + userHistory.deliverablesLate
      if deliverableTotal > 0 then
        (userHistory.deliverablesOnTime : Rat) / (deliverableTotal : Rat)
      else
        1 / 2
    else
      let paymentTotal := userHistory.paymentsPunctual + userHistory.paymentsLate
      if paymentTotal > 0 then
        (userHistory.paymentsPunctual : Rat) / (paymentTotal : Rat)
      else
        1 / 2
  let contractTotal := userHistory.contractsCompleted + userHistory.contractsCancelled
  let disputeFactor : Rat :=
    if contractTotal > 0 then
      1 - (userHistory.disputesLost : Rat) / (contractTotal : Rat)
    else
      1 / 2
  let overallScore : Int :=
    jsRound ((ratingFactor * (4 / 10) + reliabilityFactor * (4 / 10) +
      disputeFactor * (2 / 10)) * 100)
  let recommendation : String :=
    if overallScore ≥ 85 then
      "Highly trusted user with excellent track record"
    else if overallScore ≥ 70 then
      "Good standing user with solid reliability"
    else if overallScore ≥ 50 then
      "Average trust level, proceed with normal verification"
    else if overallScore ≥ 30 then
      "Some concerns - additional verification recommended"
    else
      "High risk - enhanced verification strongly recommended"
  { overallScore := overallScore
    ratingFactor := ratingFactor
    reliabilityFactor := reliabilityFactor
    disputeFactor := disputeFactor
    recommendation := recommendation }

/-! ### Trust tiers (`src/server/services/trust-score.ts`) -/

/-- `TrustTier` enum. -/
inductive TrustTier
  | bronze
  | silver
  | gold
  | platinum
deriving DecidableEq, Repr

/-- Position of a tier in the order bronze < silver < gold < platinum. -/
def TrustTier.rank : TrustTier → Nat
  | TrustTier.bronze => 0
  | TrustTier.silver => 1
  | TrustTier.gold => 2
  | TrustTier.platinum => 3

/-- `TrustTierBenefits` interface. -/
structure TrustTierBenefits where
  tier : TrustTier
  minimumScore : Int
  platformFeeDiscount : Rat
  payoutSpeed : Nat
  escrowRequirements : String
  verificationLevel : String
  prioritySupport : Bool
  contractTemplateAccess : String
deriving DecidableEq, Repr

/-- The bronze entry of `TRUST_TIERS`. -/
def bronzeTier : TrustTierBenefits :=
  { tier := TrustTier.bronze
    minimumScore := 0
    platformFeeDiscount := 0
    payoutSpeed := 72
    escrowRequirements := "full"
    verificationLevel := "enhanced"
    prioritySupport := false
    contractTemplateAccess := "basic" }

/-- The silver entry of `TRUST_TIERS`. -/
def silverTier : TrustTierBenefits :=
  { tier := TrustTier.silver
    minimumScore := 50
    platformFeeDiscount := 10
    payoutSpeed := 48
    escrowRequirements := "full"
    verificationLevel := "enhanced"
    prioritySupport := false
    contractTemplateAccess := "basic" }

/-- The gold entry of `TRUST_TIERS`. -/
def goldTier : TrustTierBenefits :=
  { tier := TrustTier.gold
    minimumScore := 75
    platformFeeDiscount := 20
    payoutSpeed := 24
    escrowRequirements := "partial"
    verificationLevel := "basic"
    prioritySupport := true
    contractTemplateAccess := "premium" }

/-- The platinum entry of `TRUST_TIERS`. -/
def platinumTier : TrustTierBenefits :=
  { tier := TrustTier.platinum
    minimumScore := 90
    platformFeeDiscount := 30
    payoutSpeed := 6
    escrowRequirements := "minimal"
    verificationLevel := "simplified"
    prioritySupport := true
    contractTemplateAccess := "all" }

/-- `TRUST_TIERS` table. -/
def TRUST_TIERS : List TrustTierBenefits :=
  [bronzeTier, silverTier, goldTier, platinumTier]

/-- The current-tier computation from `calculateUserTrustScore`
(`src/server/services/trust-score.ts` lines 238-243):
`TRUST_TIERS.reduce((highest, tier) => score >= tier.minimumScore &&
tier.minimumScore >= highest.minimumScore ? tier : highest, TRUST_TIERS[0])`. -/
def resolveTier (overallScore : Int) : TrustTierBenefits :=
  TRUST_TIERS.foldl
    (fun highest tier =>
      if overallScore ≥ tier.minimumScore ∧ tier.minimumScore ≥ highest.minimumScore then
        tier
      else
        highest)
    bronzeTier

/-! ### Spec-side reference definitions

These are NOT translations of the source; they transcribe the spec's
words, to be compared against the source-derived operations above. -/

/-- Modelled from the spec (§4.1): the contract status transition graph
`draft -> pending -> active -> {completed, cancelled}` with
`active <-> disputed`.  The source has no such check; this definition
exists only to state which transitions the spec permits. -/
def specAllowedContractTransition : ContractStatus → ContractStatus → Bool
  | ContractStatus.draft, ContractStatus.pending => true
  | ContractStatus.pending, ContractStatus.active => true
  | ContractStatus.active, ContractStatus.completed => true
  | ContractStatus.active, ContractStatus.cancelled => true
  | ContractStatus.active, ContractStatus.disputed => true
  | ContractStatus.disputed, ContractStatus.active => true
  | _, _ => false

/-- Modelled from the spec (§4.2): `completeMilestone` requires current
status `ready_for_payment` and an associated escrow payment with a
non-null release timestamp.  The source performs no such check; this
definition exists only to state the spec's precondition. -/
def specCanCompleteMilestone (s : MemStorage) (id : Nat) : Prop :=
  ∃ milestone, s.getMilestone id = some milestone ∧
    milestone.status = MilestoneStatus.ready_for_payment ∧
    ∃ payment ∈ s.getEscrowPaymentsByMilestone id, payment.releasedAt ≠ none

/-- Modelled from the spec (§4.3): a deposit against a milestone is barred
when the amount differs from the milestone's current amount or an active
(unreleased) deposit already exists.  The source performs no such check. -/
def specDepositAllowed (s : MemStorage) (paymentData : InsertEscrowPayment) : Prop :=
  (∃ milestone, s.getMilestone paymentData.milestoneId = some milestone ∧
    milestone.amount = paymentData.amount) ∧
  ∀ payment ∈ s.getEscrowPaymentsByMilestone paymentData.milestoneId,
    payment.releasedAt ≠ none

/-- The three terminal (resolved) dispute statuses of §4.4. -/
def DisputeStatus.isResolved : DisputeStatus → Bool
  | DisputeStatus.resolved_for_client => true
  | DisputeStatus.resolved_for_freelancer => true
  | DisputeStatus.resolved_compromise => true
  | _ => false

/-- Per-aggregate freshness invariant of `MemStorage`: every stored key is
below the corresponding id counter.  It holds of the constructor state and
is preserved by every operation. -/
def storeWF (s : MemStorage) : Prop :=
  (∀ p ∈ s.users, p.1 < s.userIdCounter) ∧
  (∀ p ∈ s.contracts, p.1 < s.contractIdCounter) ∧
  (∀ p ∈ s.milestones, p.1 < s.milestoneIdCounter) ∧
  (∀ p ∈ s.escrowPayments, p.1 < s.escrowPaymentIdCounter) ∧
  (∀ p ∈ s.disputes, p.1 < s.disputeIdCounter) ∧
  (∀ p ∈ s.reviews, p.1 < s.reviewIdCounter)

/-! ### Concrete fixtures used by counterexamples and witnesses -/

/-- An insert request for a contract, with no explicit status (so the
created contract starts in `draft`). -/
def insertContract0 : InsertContract :=
  { title := "Site build"
    description := "Build the site"
    clientId := 1
    freelancerId := 2
    status := none
    totalAmount := 1000
    contractType := "fixed"
    startDate := 0
    endDate := 10
    termsAndConditions := "net 30" }

/-- Store holding exactly one contract (id 1) in `draft` status. -/
def storeWithDraftContract : MemStorage :=
  (emptyStorage.createContract insertContract0 0).2

/-- An insert request for a $500 milestone created directly in
`pending_review` status. -/
def insertMilestone0 : InsertMilestone :=
  { contractId := 1
    title := "M1"
    description := "First milestone"
    amount := 500
    status := some MilestoneStatus.pending_review
    dueDate := 100 }

/-- Store holding contract 1 and milestone 1 (amount 500, status
`pending_review`), with no escrow payments. -/
def storeWithPendingReviewMilestone : MemStorage :=
  (storeWithDraftContract.createMilestone insertMilestone0).2

/-- A deposit request of $300 against milestone 1 (whose amount is $500). -/
def insertPayment300 : InsertEscrowPayment :=
  { milestoneId := 1
    clientId := 1
    freelancerId := 2
    amount := 300
    status := "deposited"
    paymentMethod := PaymentMethod.stripe
    paymentDetails := none
    stripePaymentIntentId := none
    blockchainTxHash := none }

/-- A deposit request of $500 against milestone 1. -/
def insertPayment500 : InsertEscrowPayment :=
  { insertPayment300 with amount := 500 }

/-- Store where escrow payment 1 has been deposited (at time 10) and then
released (at time 20). -/
def storeWithReleasedPayment : MemStorage :=
  ((storeWithPendingReviewMilestone.createEscrowPayment insertPayment500 10).2.releaseEscrowPayment
    1 20).2

/-- An insert request for a dispute (status defaulted, hence `open`). -/
def insertDispute0 : InsertDispute :=
  { contractId := 1
    milestoneId := some 1
    initiatedBy := 1
    respondent := 2
    moderatorId := none
    status := none
    reason := "late delivery"
    evidence := none
    resolution := none }

/-- Store where dispute 1 was opened at time 5 and resolved for the client
at time 10 (so `resolvedAt = some 10`). -/
def storeWithResolvedDispute : MemStorage :=
  ((emptyStorage.createDispute insertDispute0 5).2.updateDisputeStatus 1
    DisputeStatus.resolved_for_client (some "refund issued") 10).2

/-- Scenario A of the spec: a new provider, no reviews (so average rating
0 as produced by `getUserRating`), no disputes, 3 on-time deliverables. -/
def scenarioAHistory : UserHistory :=
  { contractsCompleted := 0
    contractsCancelled := 0
    averageRating := 0
    disputesInitiated := 0
    disputesLost := 0
    paymentsPunctual := 0
    paymentsLate := 0
    deliverablesOnTime := 0
    deliverablesLate := 0 }

/-- Scenario A, with the three on-time deliverables. -/
def scenarioAHistoryOnTime : UserHistory :=
  { scenarioAHistory with deliverablesOnTime := 3 }

/-- A history with more lost disputes than finished contracts. -/
def lopsidedHistory : UserHistory :=
  { contractsCompleted := 1
    contractsCancelled := 0
    averageRating := 0
    disputesInitiated := 5
    disputesLost := 5
    paymentsPunctual := 0
    paymentsLate := 0
    deliverablesOnTime := 0
    deliverablesLate := 0 }

/-- An insert request for a user. -/
def insertUser0 : InsertUser :=
  { username := "alice"
    password := "pw"
    email := "alice@example.com"
    fullName := "Alice"
    userType := UserType.freelancer
    bio := none
    profileImage := none }

/-- The contract created by `storeWithDraftContract`. -/
def contract1 : Contract :=
  (emptyStorage.createContract insertContract0 0).1

/-- The milestone created by `storeWithPendingReviewMilestone`. -/
def milestone1 : Milestone :=
  (storeWithDraftContract.createMilestone insertMilestone0).1

/-! ## Theorems -/

/-- Setting a key that is fresh for the map appends the binding and keeps
every existing binding in place. -/
theorem mapSet_fresh {α : Type} (m : List (Nat × α)) (k : Nat) (v : α)
    (h : ∀ p ∈ m, p.1 ≠ k) : mapSet m k v = m ++ [(k, v)] := by
  unfold mapSet
  rw [if_neg]
  intro hany
  rw [List.any_eq_true] at hany
  obtain ⟨p, hp, he⟩ := hany
  exact h p hp (by simpa using he)

/-- C1 (amended): `updateContractStatus` fails, returning `undefined` with
the store untouched, exactly when no contract with the given id exists;
when the contract exists it unconditionally overwrites the status with the
requested value — no transition-graph validation of any kind. -/
theorem updateContractStatus_unguarded (s : MemStorage) (id : Nat) (st : ContractStatus) :
    (s.getContract id = none → s.updateContractStatus id st = (none, s)) ∧
    ∀ c, s.getContract id = some c →
      s.updateContractStatus id st =
        (some { c with status := st },
         { s with contracts := mapSet s.contracts id { c with status := st } }) := by
  constructor
  · intro h
    unfold MemStorage.updateContractStatus
    unfold MemStorage.getContract at h
    rw [h]
  · intro c h
    unfold MemStorage.updateContractStatus
    unfold MemStorage.getContract at h
    rw [h]

/-- C1 (witness): on the store holding contract 1 in `draft`, the update
to `active` takes the success branch of `updateContractStatus_unguarded`. -/
theorem updateContractStatus_unguarded_witness :
    storeWithDraftContract.updateContractStatus 1 ContractStatus.active =
      (some { contract1 with status := ContractStatus.active },
       { storeWithDraftContract with
         contracts := mapSet storeWithDraftContract.contracts 1
           { contract1 with status := ContractStatus.active } }) :=
  (updateContractStatus_unguarded storeWithDraftContract 1 ContractStatus.active).2
    contract1 rfl

/-- C1 (counterexample): a `draft` contract is moved directly to
`completed` — a transition outside the spec graph — and the operation
succeeds rather than failing with `InvalidTransition`. -/
theorem updateContractStatus_skips_states :
    storeWithDraftContract.getContract 1 = some contract1 ∧
    contract1.status = ContractStatus.draft ∧
    specAllowedContractTransition ContractStatus.draft ContractStatus.completed = false ∧
    ((storeWithDraftContract.updateContractStatus 1 ContractStatus.completed).1.map
      (fun c => c.status)) = some ContractStatus.completed :=
  ⟨rfl, rfl, rfl, rfl⟩

/-- C2 (amended): `completeMilestone` fails, returning `undefined` with the
store untouched, exactly when no milestone with the given id exists; when
the milestone exists it unconditionally sets the status to `completed` and
overwrites the completion timestamp, regardless of the current status and
of any escrow state — so re-completion also succeeds and re-stamps the
timestamp. -/
theorem completeMilestone_unguarded (s : MemStorage) (id : Nat) (completedDate : Nat) :
    (s.getMilestone id = none → s.completeMilestone id completedDate = (none, s)) ∧
    ∀ m, s.getMilestone id = some m →
      s.completeMilestone id completedDate =
        (some { m with
            status := MilestoneStatus.completed
            completedDate := some completedDate },
         { s with
           milestones := mapSet s.milestones id
             { m with
               status := MilestoneStatus.completed
               completedDate := some completedDate } }) := by
  constructor
  · intro h
    unfold MemStorage.completeMilestone
    unfold MemStorage.getMilestone at h
    rw [h]
  · intro m h
    unfold MemStorage.completeMilestone
    unfold MemStorage.getMilestone at h
    rw [h]

/-- C2 (witness): completing milestone 1 takes the success branch of
`completeMilestone_unguarded` on the concrete store. -/
theorem completeMilestone_unguarded_witness :
    storeWithPendingReviewMilestone.completeMilestone 1 42 =
      (some { milestone1 with
          status := MilestoneStatus.completed
          completedDate := some 42 },
       { storeWithPendingReviewMilestone with
         milestones := mapSet storeWithPendingReviewMilestone.milestones 1
           { milestone1 with
             status := MilestoneStatus.completed
             completedDate := some 42 } }) :=
  (completeMilestone_unguarded storeWithPendingReviewMilestone 1 42).2 milestone1 rfl

/-- C2 (counterexample): milestone 1 is in `pending_review` with no escrow
payment at all, yet `completeMilestone` succeeds, setting the status to
`completed` and stamping the completion date, instead of failing with
`PreconditionFailed`. -/
theorem completeMilestone_ignores_preconditions :
    (storeWithPendingReviewMilestone.getMilestone 1).map (fun m => m.status) =
      some MilestoneStatus.pending_review ∧
    storeWithPendingReviewMilestone.escrowPayments = [] ∧
    ¬ specCanCompleteMilestone storeWithPendingReviewMilestone 1 ∧
    ((storeWithPendingReviewMilestone.completeMilestone 1 42).1.map
      (fun m => (m.status, m.completedDate))) =
      some (MilestoneStatus.completed, some 42) := by
  refine ⟨rfl, rfl, ?_, rfl⟩
  rintro ⟨m, -, -, p, hp, -⟩
  rw [show storeWithPendingReviewMilestone.getEscrowPaymentsByMilestone 1 = [] from rfl] at hp
  exact absurd hp (List.not_mem_nil p)

/-- C3 (amended): `createEscrowPayment` never fails: for every request it
mints a fresh `EscrowPayment` carrying the requested amount, with deposit
timestamp = now and release timestamp = null, performing no amount-match
or single-active-deposit validation. -/
theorem createEscrowPayment_no_validation (s : MemStorage) (d : InsertEscrowPayment)
    (now : Nat) :
    (s.createEscrowPayment d now).1.amount = d.amount ∧
    (s.createEscrowPayment d now).1.milestoneId = d.milestoneId ∧
    (s.createEscrowPayment d now).1.depositedAt = now ∧
    (s.createEscrowPayment d now).1.releasedAt = none ∧
    (s.createEscrowPayment d now).1.id = s.escrowPaymentIdCounter ∧
    (s.createEscrowPayment d now).2.escrowPayments =
      mapSet s.escrowPayments s.escrowPaymentIdCounter (s.createEscrowPayment d now).1 ∧
    (s.createEscrowPayment d now).2.escrowPaymentIdCounter = s.escrowPaymentIdCounter + 1 :=
  ⟨rfl, rfl, rfl, rfl, rfl, rfl, rfl⟩

/-- C3 (counterexample): a $300 deposit against a $500 milestone — barred
by the spec's amount invariant — succeeds instead of failing with
`InvariantViolation`. -/
theorem createEscrowPayment_accepts_mismatched_amount :
    (storeWithPendingReviewMilestone.getMilestone 1).map (fun m => m.amount) = some 500 ∧
    insertPayment300.amount = 300 ∧
    ¬ specDepositAllowed storeWithPendingReviewMilestone insertPayment300 ∧
    (storeWithPendingReviewMilestone.createEscrowPayment insertPayment300 7).1.amount = 300 ∧
    (storeWithPendingReviewMilestone.createEscrowPayment insertPayment300 7).1.releasedAt =
      none := by
  refine ⟨rfl, rfl, ?_, rfl, rfl⟩
  rintro ⟨⟨m, hm, ha⟩, -⟩
  have hm1 : some milestone1 = some m :=
    (show storeWithPendingReviewMilestone.getMilestone insertPayment300.milestoneId =
      some milestone1 from rfl).symm.trans hm
  cases hm1
  exact absurd ha (by decide)

/-- C4 (amended): `releaseEscrowPayment` fails, returning `undefined` with
the store untouched, exactly when no payment with the given id exists;
when the payment exists it unconditionally sets `releasedAt` to the given
date — even when the payment was already released, overwriting the earlier
timestamp — and it never modifies any milestone record. -/
theorem releaseEscrowPayment_unguarded (s : MemStorage) (id : Nat) (releaseDate : Nat) :
    (s.getEscrowPayment id = none → s.releaseEscrowPayment id releaseDate = (none, s)) ∧
    (∀ p, s.getEscrowPayment id = some p →
      s.releaseEscrowPayment id releaseDate =
        (some { p with releasedAt := some releaseDate },
         { s with
           escrowPayments := mapSet s.escrowPayments id
             { p with releasedAt := some releaseDate } })) ∧
    (s.releaseEscrowPayment id releaseDate).2.milestones = s.milestones := by
  refine ⟨?_, ?_, ?_⟩
  · intro h
    unfold MemStorage.releaseEscrowPayment
    unfold MemStorage.getEscrowPayment at h
    rw [h]
  · intro p h
    unfold MemStorage.releaseEscrowPayment
    unfold MemStorage.getEscrowPayment at h
    rw [h]
  · unfold MemStorage.releaseEscrowPayment
    cases mapGet s.escrowPayments id <;> rfl

/-- C4 (witness): releasing payment 1 on the concrete store takes the
success branch of `releaseEscrowPayment_unguarded`. -/
theorem releaseEscrowPayment_unguarded_witness :
    ((storeWithPendingReviewMilestone.createEscrowPayment insertPayment500 10).2.releaseEscrowPayment
        1 20).1 =
      some { (storeWithPendingReviewMilestone.createEscrowPayment insertPayment500 10).1 with
        releasedAt := some 20 } := by
  rw [((releaseEscrowPayment_unguarded
    (storeWithPendingReviewMilestone.createEscrowPayment insertPayment500 10).2 1 20).2.1
    (storeWithPendingReviewMilestone.createEscrowPayment insertPayment500 10).1 rfl)]

/-- C4 (counterexample): payment 1 is already released (at time 20), yet a
second release at time 30 succeeds and overwrites the release timestamp,
instead of failing with `InvalidTransition` and leaving the payment
unchanged. -/
theorem releaseEscrowPayment_rereleases :
    (storeWithReleasedPayment.getEscrowPayment 1).map (fun p => p.releasedAt) =
      some (some 20) ∧
    ((storeWithReleasedPayment.releaseEscrowPayment 1 30).1.map (fun p => p.releasedAt)) =
      some (some 30) :=
  ⟨rfl, rfl⟩

/-- C5 (amended): `updateDisputeStatus` fails, returning `undefined` with
the store untouched, exactly when no dispute with the given id exists;
when the dispute exists the requested status is applied unconditionally —
re-resolving an already-resolved dispute succeeds — and `resolvedAt` is
re-stamped with the current time on every call whose new status is a
resolved status (so the resolution timestamp is not set exactly once),
while non-resolved statuses leave the old timestamp in place. -/
theorem updateDisputeStatus_restamps (s : MemStorage) (id : Nat) (st : DisputeStatus)
    (resolution : Option String) (now : Nat) :
    (s.getDispute id = none → s.updateDisputeStatus id st resolution now = (none, s)) ∧
    ∀ d, s.getDispute id = some d →
      (s.updateDisputeStatus id st resolution now).1 =
        some { d with
          status := st
          resolution :=
            match orNullStr resolution with
            | some r => some r
            | none => d.resolution
          resolvedAt := if st.isResolved then some now else d.resolvedAt } := by
  constructor
  · intro h
    unfold MemStorage.updateDisputeStatus
    unfold MemStorage.getDispute at h
    rw [h]
  · intro d h
    unfold MemStorage.updateDisputeStatus
    unfold MemStorage.getDispute at h
    rw [h]
    cases st <;> simp [DisputeStatus.isResolved]

/-- C5 (witness): re-resolving dispute 1 takes the success branch of
`updateDisputeStatus_restamps` on the concrete store. -/
theorem updateDisputeStatus_restamps_witness :
    ((storeWithResolvedDispute.updateDisputeStatus 1 DisputeStatus.resolved_for_client
        none 20).1.map (fun d => d.resolvedAt)) = some (some 20) := by
  have h := (updateDisputeStatus_restamps storeWithResolvedDispute 1
    DisputeStatus.resolved_for_client none 20).2
    ((storeWithResolvedDispute.getDispute 1).get (by decide)) rfl
  rw [h]
  rfl

/-- C5 (counterexample): dispute 1 is already resolved (resolution
timestamp 10), yet calling the resolve operation again succeeds and
re-stamps `resolvedAt` to 20, instead of failing with `InvalidTransition`
with the state unchanged. -/
theorem updateDisputeStatus_not_idempotent :
    (storeWithResolvedDispute.getDispute 1).map (fun d => (d.status, d.resolvedAt)) =
      some (DisputeStatus.resolved_for_client, some 10) ∧
    ((storeWithResolvedDispute.updateDisputeStatus 1 DisputeStatus.resolved_for_client
        (some "second pass") 20).1.map (fun d => d.resolvedAt)) = some (some 20) :=
  ⟨rfl, rfl⟩

/-- The rating factor is the raw quotient `averageRating / 5`. -/
theorem trustScore_ratingFactor (userId : Nat) (userType : UserType) (h : UserHistory) :
    (calculateTrustScore userId userType h).ratingFactor = h.averageRating / 5 :=
  rfl

/-- The reliability factor, by user type and timeliness counters. -/
theorem trustScore_reliabilityFactor (userId : Nat) (userType : UserType) (h : UserHistory) :
    (calculateTrustScore userId userType h).reliabilityFactor =
      if userType = UserType.freelancer then
        if h.deliverablesOnTime + h.deliverablesLate > 0 then
          (h.deliverablesOnTime : Rat) / ((h.deliverablesOnTime + h.deliverablesLate : Nat) : Rat)
        else
          1 / 2
      else
        if h.paymentsPunctual + h.paymentsLate > 0 then
          (h.paymentsPunctual : Rat) / ((h.paymentsPunctual + h.paymentsLate : Nat) : Rat)
        else
          1 / 2 :=
  rfl

/-- The dispute factor, by the finished-contract denominator. -/
theorem trustScore_disputeFactor (userId : Nat) (userType : UserType) (h : UserHistory) :
    (calculateTrustScore userId userType h).disputeFactor =
      if h.contractsCompleted + h.contractsCancelled > 0 then
        1 - (h.disputesLost : Rat) / ((h.contractsCompleted + h.contractsCancelled : Nat) : Rat)
      else
        1 / 2 :=
  rfl

/-- The overall score is the JS rounding of the weighted factor sum. -/
theorem trustScore_overallScore (userId : Nat) (userType : UserType) (h : UserHistory) :
    (calculateTrustScore userId userType h).overallScore =
      jsRound (((calculateTrustScore userId userType h).ratingFactor * (4 / 10) +
        (calculateTrustScore userId userType h).reliabilityFactor * (4 / 10) +
        (calculateTrustScore userId userType h).disputeFactor * (2 / 10)) * 100) :=
  rfl

/-- A quotient of a count by a (possibly larger) total stays in `[0, 1]`
(in `Rat`, division by zero yields zero, so no positivity side condition
is needed). -/
theorem natRatio_bounds (a b : Nat) :
    0 ≤ (a : Rat) / ((a + b : Nat) : Rat) ∧ (a : Rat) / ((a + b : Nat) : Rat) ≤ 1 := by
  constructor
  · exact div_nonneg (by positivity) (by positivity)
  · apply div_le_one_of_le₀
    · push_cast
      linarith [Nat.cast_nonneg (α := Rat) b]
    · positivity

/-- Evaluation rule for `jsRound` at a known result. -/
theorem jsRound_eq (q : Rat) (z : Int) (h1 : (z : Rat) ≤ q + 1 / 2)
    (h2 : q + 1 / 2 < (z : Rat) + 1) : jsRound q = z := by
  unfold jsRound
  rw [Int.floor_eq_iff]
  exact ⟨h1, h2⟩

/-- Scenario A evaluated on the source scoring function: rating factor 0
(not 0.5) and overall score 50 (not 70). -/
theorem scenarioA_overallScore_eval :
    (calculateTrustScore 1 UserType.freelancer scenarioAHistoryOnTime).ratingFactor = 0 ∧
    (calculateTrustScore 1 UserType.freelancer scenarioAHistoryOnTime).overallScore = 50 := by
  constructor
  · rw [trustScore_ratingFactor]
    norm_num [scenarioAHistoryOnTime, scenarioAHistory]
  · rw [trustScore_overallScore, trustScore_ratingFactor, trustScore_reliabilityFactor,
      trustScore_disputeFactor]
    norm_num [scenarioAHistoryOnTime, scenarioAHistory]
    exact jsRound_eq 50 50 (by norm_num) (by norm_num)

/-- `jsRound` maps `[0, 100]` into `[0, 100]`. -/
theorem jsRound_bounds (q : Rat) (h0 : 0 ≤ q) (h1 : q ≤ 100) :
    0 ≤ jsRound q ∧ jsRound q ≤ 100 := by
  unfold jsRound
  constructor
  · exact Int.floor_nonneg.mpr (by linarith)
  · have : (⌊q + 1 / 2⌋ : Int) < 101 := by
      rw [Int.floor_lt]
      push_cast
      linarith
    omega

/-- C6 (amended): the rating factor used by `calculateTrustScore` is the
raw quotient `averageRating / 5`, with no clamping and no neutral 0.5
default: a user with no reviews gets average rating 0 from
`getUserRating`, hence rating factor 0, and the Scenario-A provider
(0 reviews, 0 disputes, 3 on-time deliverables out of 3) receives an
overall score of 50, not 70. -/
theorem ratingFactor_unclamped_zero_default :
    (∀ (userId : Nat) (userType : UserType) (h : UserHistory),
      (calculateTrustScore userId userType h).ratingFactor = h.averageRating / 5) ∧
    (∀ (s : MemStorage) (uid : Nat), s.getReviewsByUser uid = [] → s.getUserRating uid = 0) ∧
    (calculateTrustScore 1 UserType.freelancer scenarioAHistoryOnTime).ratingFactor = 0 ∧
    (calculateTrustScore 1 UserType.freelancer scenarioAHistoryOnTime).overallScore = 50 := by
  refine ⟨fun _ _ _ => rfl, fun s uid h => ?_, scenarioA_overallScore_eval.1,
    scenarioA_overallScore_eval.2⟩
  unfold MemStorage.getUserRating
  rw [h]
  rfl

/-- C6 (witness): the no-review branch of
`ratingFactor_unclamped_zero_default` applied to the empty store. -/
theorem ratingFactor_unclamped_zero_default_witness :
    emptyStorage.getUserRating 7 = 0 :=
  ratingFactor_unclamped_zero_default.2.1 emptyStorage 7 rfl

/-- C6 (counterexample): with no reviews the rating factor is 0 rather
than 0.5, and the Scenario-A provider scores 50 rather than 70. -/
theorem scenarioA_score_is_50_not_70 :
    emptyStorage.getReviewsByUser 1 = [] ∧
    emptyStorage.getUserRating 1 = 0 ∧
    (calculateTrustScore 1 UserType.freelancer scenarioAHistoryOnTime).ratingFactor ≠ 1 / 2 ∧
    (calculateTrustScore 1 UserType.freelancer scenarioAHistoryOnTime).overallScore ≠ 70 :=
  ⟨rfl, rfl, by rw [scenarioA_overallScore_eval.1]; norm_num,
    by rw [scenarioA_overallScore_eval.2]; decide⟩

/-- C7 (amended): the overall score is
`round(100 * (0.4*ratingFactor + 0.4*reliabilityFactor + 0.2*disputeFactor))`
with the dispute factor equal to
`1 - disputesLost / (contractsCompleted + contractsCancelled)` — with NO
clamping — when the denominator is positive, and 0.5 when it is 0; the
score lies in `[0, 100]` provided the average rating is within `[0, 5]`
and the lost-dispute count does not exceed the finished-contract count. -/
theorem overallScore_formula_and_conditional_bounds (userId : Nat) (userType : UserType)
    (h : UserHistory) :
    ((calculateTrustScore userId userType h).overallScore =
      jsRound (((calculateTrustScore userId userType h).ratingFactor * (4 / 10) +
        (calculateTrustScore userId userType h).reliabilityFactor * (4 / 10) +
        (calculateTrustScore userId userType h).disputeFactor * (2 / 10)) * 100)) ∧
    (h.contractsCompleted + h.contractsCancelled = 0 →
      (calculateTrustScore userId userType h).disputeFactor = 1 / 2) ∧
    (0 < h.contractsCompleted + h.contractsCancelled →
      (calculateTrustScore userId userType h).disputeFactor =
        1 - (h.disputesLost : Rat) /
          ((h.contractsCompleted + h.contractsCancelled : Nat) : Rat)) ∧
    (0 ≤ h.averageRating → h.averageRating ≤ 5 →
      h.disputesLost ≤ h.contractsCompleted + h.contractsCancelled →
      0 ≤ (calculateTrustScore userId userType h).overallScore ∧
      (calculateTrustScore userId userType h).overallScore ≤ 100) := by
  refine ⟨trustScore_overallScore userId userType h, ?_, ?_, ?_⟩
  · intro h0
    rw [trustScore_disputeFactor, if_neg]
    omega
  · intro h0
    rw [trustScore_disputeFactor, if_pos h0]
  · intro hr0 hr5 hdl
    have hrf : 0 ≤ (calculateTrustScore userId userType h).ratingFactor ∧
        (calculateTrustScore userId userType h).ratingFactor ≤ 1 := by
      rw [trustScore_ratingFactor]
      constructor
      · positivity
      · rw [div_le_one (by norm_num : (0 : Rat) < 5)]
        linarith
    have hrel : 0 ≤ (calculateTrustScore userId userType h).reliabilityFactor ∧
        (calculateTrustScore userId userType h).reliabilityFactor ≤ 1 := by
      rw [trustScore_reliabilityFactor]
      split_ifs
      · exact natRatio_bounds h.deliverablesOnTime h.deliverablesLate
      · norm_num
      · exact natRatio_bounds h.paymentsPunctual h.paymentsLate
      · norm_num
    have hdf : 0 ≤ (calculateTrustScore userId userType h).disputeFactor ∧
        (calculateTrustScore userId userType h).disputeFactor ≤ 1 := by
      rw [trustScore_disputeFactor]
      split_ifs with hpos
      · have hq0 : 0 ≤ (h.disputesLost : Rat) /
            ((h.contractsCompleted + h.contractsCancelled : Nat) : Rat) :=
          div_nonneg (by positivity) (by positivity)
        have hq1 : (h.disputesLost : Rat) /
            ((h.contractsCompleted + h.contractsCancelled : Nat) : Rat) ≤ 1 := by
          apply div_le_one_of_le₀
          · exact_mod_cast hdl
          · positivity
        constructor <;> linarith
      · norm_num
    rw [trustScore_overallScore]
    exact jsRound_bounds _ (by nlinarith [hrf.1, hrel.1, hdf.1])
      (by nlinarith [hrf.2, hrel.2, hdf.2, hrf.1, hrel.1, hdf.1])

/-- C7 (witness): the bounds branch of
`overallScore_formula_and_conditional_bounds` at Scenario A's history. -/
theorem overallScore_formula_and_conditional_bounds_witness :
    0 ≤ (calculateTrustScore 1 UserType.freelancer scenarioAHistoryOnTime).overallScore ∧
    (calculateTrustScore 1 UserType.freelancer scenarioAHistoryOnTime).overallScore ≤ 100 :=
  (overallScore_formula_and_conditional_bounds 1 UserType.freelancer
    scenarioAHistoryOnTime).2.2.2 (by norm_num [scenarioAHistoryOnTime, scenarioAHistory])
    (by norm_num [scenarioAHistoryOnTime, scenarioAHistory])
    (by norm_num [scenarioAHistoryOnTime, scenarioAHistory])

/-- C7 (counterexample): with 5 lost disputes against 1 finished contract
the dispute factor evaluates to -4 (not clamped to `[0, 1]`) and the
overall score to -60, outside `[0, 100]`. -/
theorem overallScore_out_of_range :
    (calculateTrustScore 1 UserType.freelancer lopsidedHistory).disputeFactor = -4 ∧
    (calculateTrustScore 1 UserType.freelancer lopsidedHistory).overallScore = -60 := by
  constructor
  · rw [trustScore_disputeFactor]
    norm_num [lopsidedHistory]
  · rw [trustScore_overallScore, trustScore_ratingFactor, trustScore_reliabilityFactor,
      trustScore_disputeFactor]
    norm_num [lopsidedHistory]
    exact jsRound_eq (-60) (-60) (by norm_num) (by norm_num)

/-- C8: `calculateTrustScore` is deterministic — two invocations on equal
user ids, user types and history counters return identical results (score,
all three factors and recommendation alike). -/
theorem calculateTrustScore_deterministic (userId1 userId2 : Nat)
    (userType1 userType2 : UserType) (h1 h2 : UserHistory)
    (hu : userId1 = userId2) (ht : userType1 = userType2) (hh : h1 = h2) :
    calculateTrustScore userId1 userType1 h1 = calculateTrustScore userId2 userType2 h2 := by
  subst hu
  subst ht
  subst hh
  rfl

/-- C8 (witness): determinism instantiated at Scenario A's input. -/
theorem calculateTrustScore_deterministic_witness :
    calculateTrustScore 1 UserType.freelancer scenarioAHistoryOnTime =
      calculateTrustScore 1 UserType.freelancer scenarioAHistoryOnTime :=
  calculateTrustScore_deterministic 1 1 UserType.freelancer UserType.freelancer
    scenarioAHistoryOnTime scenarioAHistoryOnTime rfl rfl rfl

/-- Closed form of the tier fold: platinum from 90, gold from 75, silver
from 50, bronze otherwise (also for negative scores, where the fold's
initial accumulator survives). -/
theorem resolveTier_cases (s : Int) :
    resolveTier s =
      if 90 ≤ s then platinumTier
      else if 75 ≤ s then goldTier
      else if 50 ≤ s then silverTier
      else bronzeTier := by
  unfold resolveTier TRUST_TIERS
  simp only [List.foldl, bronzeTier, silverTier, goldTier, platinumTier,
    apply_ite TrustTierBenefits.minimumScore]
  split_ifs <;> first | rfl | omega

/-- C9: the tier table is exactly bronze 0, silver 50, gold 75, platinum
90; for every non-negative score the resolved tier is an entry of the
table, its minimum is ≤ the score, and its minimum dominates every table
entry whose minimum is ≤ the score (so it is the highest qualifying
entry); and tier resolution is monotone in the order bronze < silver <
gold < platinum. -/
theorem resolveTier_highest_monotone :
    (TRUST_TIERS.map (fun t => (t.tier, t.minimumScore)) =
      [(TrustTier.bronze, 0), (TrustTier.silver, 50),
       (TrustTier.gold, 75), (TrustTier.platinum, 90)]) ∧
    (∀ s : Int, 0 ≤ s →
      resolveTier s ∈ TRUST_TIERS ∧
      (resolveTier s).minimumScore ≤ s ∧
      ∀ t ∈ TRUST_TIERS, t.minimumScore ≤ s → t.minimumScore ≤ (resolveTier s).minimumScore) ∧
    (∀ s1 s2 : Int, s2 ≤ s1 →
      TrustTier.rank (resolveTier s2).tier ≤ TrustTier.rank (resolveTier s1).tier) := by
  refine ⟨by decide, fun s hs => ?_, fun s1 s2 h => ?_⟩
  · rw [resolveTier_cases]
    split_ifs with h90 h75 h50 <;>
      refine ⟨by simp [TRUST_TIERS], ?_, ?_⟩ <;>
      simp only [TRUST_TIERS, bronzeTier, silverTier, goldTier, platinumTier,
        List.mem_cons, List.not_mem_nil, or_false] <;>
      first
        | omega
        | (rintro t (rfl | rfl | rfl | rfl) <;> simp <;> omega)
  · rw [resolveTier_cases s1, resolveTier_cases s2]
    split_ifs <;>
      simp only [TrustTier.rank, bronzeTier, silverTier, goldTier, platinumTier] <;>
      omega

/-- C9 (witness): the highest-qualifying-entry property at score 80 and
monotonicity between scores 60 and 95. -/
theorem resolveTier_highest_monotone_witness :
    (resolveTier 80).minimumScore ≤ 80 ∧
    TrustTier.rank (resolveTier 60).tier ≤ TrustTier.rank (resolveTier 95).tier :=
  ⟨(resolveTier_highest_monotone.2.1 80 (by norm_num)).2.1,
   resolveTier_highest_monotone.2.2 95 60 (by norm_num)⟩

/-- C10: under the freshness invariant (every stored key is below its id
counter, true of the constructor state), each of the six entity-creating
operations assigns the new record an id equal to the current counter —
hence distinct from every id of that type already stored — bumps that
counter by one, appends the new record, and leaves every previously
stored record of every type unchanged. -/
theorem create_ops_fresh_ids (s : MemStorage) (hwf : storeWF s) :
    (∀ d : InsertUser,
      (s.createUser d).1.id = s.userIdCounter ∧
      (∀ p ∈ s.users, p.1 ≠ (s.createUser d).1.id) ∧
      (s.createUser d).2.userIdCounter = s.userIdCounter + 1 ∧
      (s.createUser d).2.users = s.users ++ [((s.createUser d).1.id, (s.createUser d).1)] ∧
      (s.createUser d).2.contracts = s.contracts ∧
      (s.createUser d).2.milestones = s.milestones ∧
      (s.createUser d).2.escrowPayments = s.escrowPayments ∧
      (s.createUser d).2.disputes = s.disputes ∧
      (s.createUser d).2.reviews = s.reviews) ∧
    (∀ (d : InsertContract) (now : Nat),
      (s.createContract d now).1.id = s.contractIdCounter ∧
      (∀ p ∈ s.contracts, p.1 ≠ (s.createContract d now).1.id) ∧
      (s.createContract d now).2.contractIdCounter = s.contractIdCounter + 1 ∧
      (s.createContract d now).2.contracts =
        s.contracts ++ [((s.createContract d now).1.id, (s.createContract d now).1)] ∧
      (s.createContract d now).2.users = s.users ∧
      (s.createContract d now).2.milestones = s.milestones ∧
      (s.createContract d now).2.escrowPayments = s.escrowPayments ∧
      (s.createContract d now).2.disputes = s.disputes ∧
      (s.createContract d now).2.reviews = s.reviews) ∧
    (∀ d : InsertMilestone,
      (s.createMilestone d).1.id = s.milestoneIdCounter ∧
      (∀ p ∈ s.milestones, p.1 ≠ (s.createMilestone d).1.id) ∧
      (s.createMilestone d).2.milestoneIdCounter = s.milestoneIdCounter + 1 ∧
      (s.createMilestone d).2.milestones =
        s.milestones ++ [((s.createMilestone d).1.id, (s.createMilestone d).1)] ∧
      (s.createMilestone d).2.users = s.users ∧
      (s.createMilestone d).2.contracts = s.contracts ∧
      (s.createMilestone d).2.escrowPayments = s.escrowPayments ∧
      (s.createMilestone d).2.disputes = s.disputes ∧
      (s.createMilestone d).2.reviews = s.reviews) ∧
    (∀ (d : InsertEscrowPayment) (now : Nat),
      (s.createEscrowPayment d now).1.id = s.escrowPaymentIdCounter ∧
      (∀ p ∈ s.escrowPayments, p.1 ≠ (s.createEscrowPayment d now).1.id) ∧
      (s.createEscrowPayment d now).2.escrowPaymentIdCounter = s.escrowPaymentIdCounter + 1 ∧
      (s.createEscrowPayment d now).2.escrowPayments =
        s.escrowPayments ++
          [((s.createEscrowPayment d now).1.id, (s.createEscrowPayment d now).1)] ∧
      (s.createEscrowPayment d now).2.users = s.users ∧
      (s.createEscrowPayment d now).2.contracts = s.contracts ∧
      (s.createEscrowPayment d now).2.milestones = s.milestones ∧
      (s.createEscrowPayment d now).2.disputes = s.disputes ∧
      (s.createEscrowPayment d now).2.reviews = s.reviews) ∧
    (∀ (d : InsertDispute) (now : Nat),
      (s.createDispute d now).1.id = s.disputeIdCounter ∧
      (∀ p ∈ s.disputes, p.1 ≠ (s.createDispute d now).1.id) ∧
      (s.createDispute d now).2.disputeIdCounter = s.disputeIdCounter + 1 ∧
      (s.createDispute d now).2.disputes =
        s.disputes ++ [((s.createDispute d now).1.id, (s.createDispute d now).1)] ∧
      (s.createDispute d now).2.users = s.users ∧
      (s.createDispute d now).2.contracts = s.contracts ∧
      (s.createDispute d now).2.milestones = s.milestones ∧
      (s.createDispute d now).2.escrowPayments = s.escrowPayments ∧
      (s.createDispute d now).2.reviews = s.reviews) ∧
    (∀ (d : InsertReview) (now : Nat),
      (s.createReview d now).1.id = s.reviewIdCounter ∧
      (∀ p ∈ s.reviews, p.1 ≠ (s.createReview d now).1.id) ∧
      (s.createReview d now).2.reviewIdCounter = s.reviewIdCounter + 1 ∧
      (s.createReview d now).2.reviews =
        s.reviews ++ [((s.createReview d now).1.id, (s.createReview d now).1)] ∧
      (s.createReview d now).2.users = s.users ∧
      (s.createReview d now).2.contracts = s.contracts ∧
      (s.createReview d now).2.milestones = s.milestones ∧
      (s.createReview d now).2.escrowPayments = s.escrowPayments ∧
      (s.createReview d now).2.disputes = s.disputes) := by
  obtain ⟨hu, hc, hm, he, hd, hr⟩ := hwf
  refine ⟨fun d => ?_, fun d now => ?_, fun d => ?_, fun d now => ?_, fun d now => ?_,
    fun d now => ?_⟩
  · exact ⟨rfl, fun p hp => Nat.ne_of_lt (hu p hp),
      rfl, mapSet_fresh _ _ _ (fun p hp => Nat.ne_of_lt (hu p hp)), rfl, rfl, rfl, rfl, rfl⟩
  · exact ⟨rfl, fun p hp => Nat.ne_of_lt (hc p hp),
      rfl, mapSet_fresh _ _ _ (fun p hp => Nat.ne_of_lt (hc p hp)), rfl, rfl, rfl, rfl, rfl⟩
  · exact ⟨rfl, fun p hp => Nat.ne_of_lt (hm p hp),
      rfl, mapSet_fresh _ _ _ (fun p hp => Nat.ne_of_lt (hm p hp)), rfl, rfl, rfl, rfl, rfl⟩
  · exact ⟨rfl, fun p hp => Nat.ne_of_lt (he p hp),
      rfl, mapSet_fresh _ _ _ (fun p hp => Nat.ne_of_lt (he p hp)), rfl, rfl, rfl, rfl, rfl⟩
  · exact ⟨rfl, fun p hp => Nat.ne_of_lt (hd p hp),
      rfl, mapSet_fresh _ _ _ (fun p hp => Nat.ne_of_lt (hd p hp)), rfl, rfl, rfl, rfl, rfl⟩
  · exact ⟨rfl, fun p hp => Nat.ne_of_lt (hr p hp),
      rfl, mapSet_fresh _ _ _ (fun p hp => Nat.ne_of_lt (hr p hp)), rfl, rfl, rfl, rfl, rfl⟩

/-- C10 (witness): the constructor state satisfies the freshness
invariant, and creating a user there yields id 1 and counter 2. -/
theorem create_ops_fresh_ids_witness :
    (emptyStorage.createUser insertUser0).1.id = 1 ∧
    (emptyStorage.createUser insertUser0).2.userIdCounter = 2 :=
  ⟨((create_ops_fresh_ids emptyStorage (by simp [storeWF, emptyStorage])).1 insertUser0).1,
   ((create_ops_fresh_ids emptyStorage
      (by simp [storeWF, emptyStorage])).1 insertUser0).2.2.1⟩

end FreelanceContractPro
